import Mathlib

set_option maxRecDepth 8000

/-
Verification of the apartment investment model builder
(src/apartment-investment-model/build_model.py).

The script emits an Excel workbook whose cells hold spreadsheet formulas.
The numeric meaning of the emitted model is therefore fixed by the formula
strings written by the script together with the documented semantics of the
spreadsheet functions they call (PMT, FV, IPMT, PPMT, POWER, IF, SUM, MATCH,
INDEX).  This file embeds those formulas, cell by cell, as total functions
over the rationals: each definition below names the source line whose formula
it translates.  All arithmetic is exact (no floating point is involved in the
claims settled here).
-/

/-- Assumption set of the model, one field per row of the Inputs sheet
(DEFAULTS table, build_model.py lines 13 to 26).  Loan term and holding
period are whole years. -/
structure Inputs where
  price : ℚ
  downPct : ℚ
  closingPct : ℚ
  ratePct : ℚ
  termYears : ℤ
  rentMonthly : ℚ
  rentGrowth : ℚ
  vacancyPct : ℚ
  opexPct : ℚ
  holdYears : ℤ
  exitGrowth : ℚ

/-- Loan principal, the expression `Inputs!B2*(1-Inputs!B3)` used at lines
67 and 107: purchase price times one minus the down payment fraction. -/
def Inputs.loanAmt (i : Inputs) : ℚ := i.price * (1 - i.downPct)

/-- Monthly rate, the expression `Inputs!B5/100/12` (lines 69, 105, 153). -/
def Inputs.rMonth (i : Inputs) : ℚ := i.ratePct / 100 / 12

/-- Term in months, the expression `Inputs!B6*12` (lines 68, 106, 152). -/
def Inputs.nMonths (i : Inputs) : ℤ := i.termYears * 12

/-- Spreadsheet POWER function: integer exponentiation of a rational. -/
def POWER (x : ℚ) (k : ℤ) : ℚ := x ^ k

/-- Spreadsheet PMT function (payment of an annuity, future value 0,
payments due at period end): for rate r, period count nper and present
value pv the payment is -(pv*r/(1-(1+r)^(-nper))), and -(pv/nper) when the
rate is zero. -/
def PMT (r : ℚ) (nper : ℤ) (pv : ℚ) : ℚ :=
  if r = 0 then -(pv / (nper : ℚ))
  else -(pv * r / (1 - (1 + r) ^ (-nper)))

/-- Spreadsheet FV function (future value after nper periods of a constant
payment pmt on present value pv, payments at period end):
-(pv*(1+r)^nper + pmt*((1+r)^nper - 1)/r), and -(pv + pmt*nper) when the
rate is zero. -/
def FV (r : ℚ) (nper : ℤ) (pmt pv : ℚ) : ℚ :=
  if r = 0 then -(pv + pmt * (nper : ℚ))
  else -(pv * (1 + r) ^ nper + pmt * (((1 + r) ^ nper - 1) / r))

/-- Spreadsheet IPMT function: interest part of the payment for period per,
which is the outstanding balance after per-1 payments (an FV value) times
the rate. -/
def IPMT (r : ℚ) (per nper : ℤ) (pv : ℚ) : ℚ :=
  FV r (per - 1) (PMT r nper pv) pv * r

/-- Spreadsheet PPMT function: principal part of the payment for period per,
the payment minus the interest part. -/
def PPMT (r : ℚ) (per nper : ℤ) (pv : ℚ) : ℚ :=
  PMT r nper pv - IPMT r per nper pv

/-- Column B of the Loan sheet, `=-PMT(rate,n,loan)` (lines 72 and 79):
the fixed monthly payment, negated to a positive number. -/
def loanPaymentCell (i : Inputs) : ℚ := -PMT i.rMonth i.nMonths i.loanAmt

/-- Column C of the Loan sheet for period t, `=PPMT(rate,t,n,loan)`
(lines 73 and 80).  Note the spreadsheet sign convention: this value is
negative for a positive loan. -/
def loanPrincipalCell (i : Inputs) (t : ℕ) : ℚ :=
  PPMT i.rMonth (t : ℤ) i.nMonths i.loanAmt

/-- Column D of the Loan sheet for period t, `=IPMT(rate,t,n,loan)`
(lines 74 and 81).  Negative for a positive loan, like PPMT. -/
def loanInterestCell (i : Inputs) (t : ℕ) : ℚ :=
  IPMT i.rMonth (t : ℤ) i.nMonths i.loanAmt

/-- Column E of the Loan sheet: the running balance.  Row 2 holds
`=loan+C2` and each later row r holds `=E(r-1)+C(r)` (lines 75 and 82),
so balance 0 is the principal and each period adds the (negative)
PPMT cell. -/
def loanBalanceCell (i : Inputs) : ℕ → ℚ
  | 0 => i.loanAmt
  | t + 1 => loanBalanceCell i t + loanPrincipalCell i (t + 1)

/-- One row of the Loan sheet: period index and the four value columns. -/
structure LoanRow where
  period : ℕ
  payment : ℚ
  principalPart : ℚ
  interestPart : ℚ
  balance : ℚ

/-- The rows written by build_loan_sheet: row 2 holds period 1 (lines 71
to 75) and the loop `for r in range(3, 22)` (line 76) adds periods 2 to 20,
independent of the loan term.  The computed `max_row = 2 + int(20 * 12)`
at line 84 is never used. -/
def loanSheetRows (i : Inputs) : List LoanRow :=
  (List.range 20).map fun k =>
    { period := k + 1
      payment := loanPaymentCell i
      principalPart := loanPrincipalCell i (k + 1)
      interestPart := loanInterestCell i (k + 1)
      balance := loanBalanceCell i (k + 1) }

/-- Equity invested, the expression `price*down + price*closing` built at
lines 110 and 143 (the emitted string carries a stray leading = sign from
the f-string; the arithmetic it denotes is this sum). -/
def equityIn (i : Inputs) : ℚ := i.price * i.downPct + i.price * i.closingPct

/-- Column B of the Cash Flow sheet for year y,
`=12*rent*POWER(1+growth,A-1)` (line 121). -/
def cfGross (i : Inputs) (y : ℕ) : ℚ :=
  12 * i.rentMonthly * POWER (1 + i.rentGrowth) ((y : ℤ) - 1)

/-- Column C, `=-B*vacancy` (line 122). -/
def cfVacancy (i : Inputs) (y : ℕ) : ℚ := -(cfGross i y) * i.vacancyPct

/-- Column D, `=B+C` (line 123). -/
def cfEffective (i : Inputs) (y : ℕ) : ℚ := cfGross i y + cfVacancy i y

/-- Column E, `=-B*opex` (line 124). -/
def cfOpex (i : Inputs) (y : ℕ) : ℚ := -(cfGross i y) * i.opexPct

/-- Column F, `=D+E` (line 125). -/
def cfNOI (i : Inputs) (y : ℕ) : ℚ := cfEffective i y + cfOpex i y

/-- Column G, `=-12*Loan!B2` (line 126): twelve payments per year, negated. -/
def cfDebtService (i : Inputs) : ℚ := -(12 * loanPaymentCell i)

/-- Sale price at exit, `price*POWER(1+exitGrowth,hold)` (lines 108
and 149). -/
def cfSalePrice (i : Inputs) : ℚ := i.price * POWER (1 + i.exitGrowth) i.holdYears

/-- Exit loan balance used by the Cash Flow sheet (line 109):
`FV(rate,hold*12,PMT(rate,n,-loan),-loan)`, the closed-form outstanding
balance after hold*12 payments. -/
def loanBalExitCF (i : Inputs) : ℚ :=
  FV i.rMonth (i.holdYears * 12) (PMT i.rMonth i.nMonths (-i.loanAmt)) (-i.loanAmt)

/-- Column H (levered cash flow): row 2 (year 0) holds the negated equity
(line 114) and each operating year holds `=F+G` (line 127). -/
def cfLevered (i : Inputs) (y : ℕ) : ℚ :=
  if y = 0 then -(equityIn i) else cfNOI i y + cfDebtService i

/-- Column I (sale proceeds): 0 at year 0 (line 115) and
`=IF(A=hold, salePrice - exitBalance, 0)` for operating years (line 128). -/
def cfSale (i : Inputs) (y : ℕ) : ℚ :=
  if y = 0 then 0
  else if (y : ℤ) = i.holdYears then cfSalePrice i - loanBalExitCF i else 0

/-- Column J (total cash flow), `=H+I` (lines 116 and 129). -/
def cfTotal (i : Inputs) (y : ℕ) : ℚ := cfLevered i y + cfSale i y

/-- Column K (cumulative cash flow): `=J2` at year 0 (line 117) and
`=K(r-1)+J(r)` per later row (line 130). -/
def cfCum (i : Inputs) : ℕ → ℚ
  | 0 => cfTotal i 0
  | y + 1 => cfCum i y + cfTotal i (y + 1)

/-- Column A of the Cash Flow sheet: year 0 at row 2 (line 112) and the
loop `for r in range(3, 3 + 25)` (line 119) writes years 1 to 25,
independent of the holding period. -/
def cashflowYearCol : List ℤ := 0 :: (List.range 25).map fun k => (k : ℤ) + 1

/-- Loan balance at exit as computed on the Summary sheet (line 155):
`FV(rate, n - hold*12, PMT(rate,n,-loan), -loan)` - note the period count
n - hold*12, although the comment at line 151 describes the balance at
month hold*12. -/
def summaryLoanBalExit (i : Inputs) : ℚ :=
  FV i.rMonth (i.nMonths - i.holdYears * 12) (PMT i.rMonth i.nMonths (-i.loanAmt)) (-i.loanAmt)

/-- Value of a spreadsheet cell that can also display an error marker. -/
inductive CellResult where
  | val : ℚ → CellResult
  | err : String → CellResult
deriving DecidableEq

/-- Spreadsheet MATCH with match type 1.  Its documented result (for data
in ascending order, the only case the claims evaluate it on) is the
one-based position of the largest value less than or equal to the lookup
value, i.e. the last position holding such a value; none when every value
exceeds the lookup (the N/A error). -/
def matchAsc (target : ℚ) (vs : List ℚ) : Option ℕ :=
  ((vs.enum.filter fun p => decide (p.2 ≤ target)).map fun p => p.1 + 1).getLast?

/-- The 24 cells `K2:K25` scanned by the breakeven formula (line 174):
cumulative cash flow of years 0 to 23, regardless of the holding period. -/
def cumCFList (i : Inputs) : List ℚ := (List.range 24).map fun y => cfCum i y

/-- The 24 cells `A2:A25` indexed by the breakeven formula: years 0
to 23. -/
def yearColList : List ℚ := (List.range 24).map fun y => (y : ℚ)

/-- Breakeven cell of the Summary sheet (line 174):
`=INDEX(A2:A25, MATCH(0, K2:K25, 1) + 1)`.  MATCH yields a one-based
position p into K2:K25; INDEX then reads entry p+1 of A2:A25 (zero-based
index p), an out-of-range REF error when p+1 exceeds 24. -/
def breakevenCell (i : Inputs) : CellResult :=
  match matchAsc 0 (cumCFList i) with
  | none => CellResult.err "#N/A"
  | some p =>
    match yearColList.get? p with
    | none => CellResult.err "#REF!"
    | some v => CellResult.val v

/-- Total cash flow series discounted by the IRR cell (line 172):
`OFFSET(J2,0,0,hold+1,1)`, the column J values of years 0 to hold. -/
def totalCFList (i : Inputs) : List ℚ :=
  (List.range (i.holdYears.toNat + 1)).map fun y => cfTotal i y

/-- Modelled from the spec: the absolute convergence tolerance of the IRR
solver, 1e-7 (section 4.3).  The solver itself is not in src - line 172
only emits an `IRR(...)` formula whose numerical iteration is performed by
the external spreadsheet engine. -/
def tolIRR : ℚ := 1 / 10000000

/-- Modelled from the spec: net present value of a cash flow series at
rate r, the sum over t of cf t / (1+r)^t with year 0 first, the quantity
whose root the absent IRR solver seeks (section 4.3). -/
def npv (r : ℚ) (cfs : List ℚ) : ℚ :=
  cfs.enum.foldl (fun acc p => acc + p.2 / (1 + r) ^ p.1) 0

/-- Modelled from the spec: whether every cash flow has the same sign (no
sign change), i.e. all values nonnegative or all values nonpositive, the
condition under which the absent solver reports the IRR undefined. -/
def sameSign (cfs : List ℚ) : Bool :=
  (cfs.all fun x => decide (0 ≤ x)) || (cfs.all fun x => decide (x ≤ 0))

/-- Modelled from the spec: the bisection phase of the IRR solver over a
bounded bracket (section 4.3), absent from src.  Each step returns the
midpoint only when its NPV is within the tolerance, otherwise it keeps the
half bracket whose endpoint NPVs change sign; fuel bounds the iteration
count, exhaustion meaning nonconvergence. -/
def bisectIRR (cfs : List ℚ) : ℚ → ℚ → ℕ → Option ℚ
  | _, _, 0 => none
  | lo, hi, fuel + 1 =>
    if |npv ((lo + hi) / 2) cfs| < tolIRR then some ((lo + hi) / 2)
    else if npv lo cfs * npv ((lo + hi) / 2) cfs ≤ 0 then
      bisectIRR cfs lo ((lo + hi) / 2) fuel
    else
      bisectIRR cfs ((lo + hi) / 2) hi fuel

/-- Modelled from the spec: the IRR solver of section 4.3, absent from src
(line 172 delegates to the external engine).  A series with no sign change
is reported undefined (none); otherwise the root is sought over the
bracket [-0.99, 10] within a bounded iteration budget. -/
def irrSolve (cfs : List ℚ) : Option ℚ :=
  if sameSign cfs then none else bisectIRR cfs (-(99 / 100)) 10 100

/-- Closed-form remaining balance after m payments, written following the
words of the spec (section 4.1, balanceAt): P*(1+r)^m minus
payment*((1+r)^m - 1)/r, and P minus payment*m when the rate is zero,
where payment is the positive fixed monthly payment. -/
def specBalanceAt (i : Inputs) (m : ℤ) : ℚ :=
  if i.rMonth = 0 then i.loanAmt - loanPaymentCell i * (m : ℚ)
  else i.loanAmt * (1 + i.rMonth) ^ m -
    loanPaymentCell i * (((1 + i.rMonth) ^ m - 1) / i.rMonth)

/-- The DEFAULTS table of build_model.py (lines 13 to 26). -/
def DEFAULTS : Inputs :=
  { price := 3500000
    downPct := 3 / 10
    closingPct := 6 / 100
    ratePct := 10
    termYears := 20
    rentMonthly := 25000
    rentGrowth := 3 / 100
    vacancyPct := 5 / 100
    opexPct := 25 / 100
    holdYears := 10
    exitGrowth := 2 / 100 }

/-- Invalid assumption set: full down payment makes the loan principal 0. -/
def zeroPrincipalInput : Inputs :=
  { price := 100
    downPct := 1
    closingPct := 0
    ratePct := 0
    termYears := 1
    rentMonthly := 1
    rentGrowth := 0
    vacancyPct := 0
    opexPct := 0
    holdYears := 1
    exitGrowth := 0 }

/-- Assumption set with a nonzero rate: principal 1200, monthly rate 1/10,
term 12 months. -/
def steepRateInput : Inputs :=
  { price := 2400
    downPct := 1 / 2
    closingPct := 0
    ratePct := 120
    termYears := 1
    rentMonthly := 1
    rentGrowth := 0
    vacancyPct := 0
    opexPct := 0
    holdYears := 1
    exitGrowth := 0 }

/-- Zero-rate assumption set: principal 1200, term 12 months, so the flat
payment is 100 per month. -/
def flatRateInput : Inputs :=
  { price := 1200
    downPct := 0
    closingPct := 0
    ratePct := 0
    termYears := 1
    rentMonthly := 1
    rentGrowth := 0
    vacancyPct := 0
    opexPct := 0
    holdYears := 1
    exitGrowth := 0 }

/-- Holding period (2 years) longer than the loan term (1 year), zero
rate, principal 3600: the extrapolated balance at month 24 is -3600. -/
def overholdInput : Inputs :=
  { price := 7200
    downPct := 1 / 2
    closingPct := 0
    ratePct := 0
    termYears := 1
    rentMonthly := 1
    rentGrowth := 0
    vacancyPct := 0
    opexPct := 0
    holdYears := 2
    exitGrowth := 0 }

/-- Assumption set whose cumulative cash flow hits exactly 0 at year 2:
equity 200, yearly levered cash flow 100 (rent 50/3 per month, debt
service 100 per year). -/
def breakevenZeroInput : Inputs :=
  { price := 1000
    downPct := 1 / 5
    closingPct := 0
    ratePct := 0
    termYears := 8
    rentMonthly := 50 / 3
    rentGrowth := 0
    vacancyPct := 0
    opexPct := 0
    holdYears := 5
    exitGrowth := 0 }

/-- Assumption set whose cumulative cash flow stays negative over every
scanned year: equity 200, yearly levered cash flow 1, sale beyond the
scanned range. -/
def neverBreakevenInput : Inputs :=
  { price := 1000
    downPct := 1 / 5
    closingPct := 0
    ratePct := 0
    termYears := 8
    rentMonthly := 101 / 12
    rentGrowth := 0
    vacancyPct := 0
    opexPct := 0
    holdYears := 30
    exitGrowth := 0 }

/-- Term 3 years, holding 1 year: the two exit-balance formulas disagree
(1200 on the Summary sheet against 2400 on the Cash Flow sheet). -/
def mismatchInput : Inputs :=
  { price := 7200
    downPct := 1 / 2
    closingPct := 0
    ratePct := 0
    termYears := 3
    rentMonthly := 1
    rentGrowth := 0
    vacancyPct := 0
    opexPct := 0
    holdYears := 1
    exitGrowth := 0 }

/-- Total cash flows [-100, 0]: a series with no sign change. -/
def sameSignInput : Inputs :=
  { price := 100
    downPct := 1
    closingPct := 0
    ratePct := 0
    termYears := 1
    rentMonthly := 0
    rentGrowth := 0
    vacancyPct := 0
    opexPct := 0
    holdYears := 1
    exitGrowth := -1 }

/-- Total cash flows [-200, 1101]: the first bisection midpoint 901/200 is
already an exact root of the NPV. -/
def quickRootInput : Inputs :=
  { price := 200
    downPct := 1
    closingPct := 0
    ratePct := 0
    termYears := 1
    rentMonthly := 901 / 12
    rentGrowth := 0
    vacancyPct := 0
    opexPct := 0
    holdYears := 1
    exitGrowth := 0 }

/-- PMT is odd in its present value: negating pv negates the payment. -/
theorem PMT_neg (r : ℚ) (n : ℤ) (pv : ℚ) : PMT r n (-pv) = -PMT r n pv := by
  rcases eq_or_ne r 0 with h0 | h0
  · subst h0
    simp [PMT]
    ring
  · simp only [PMT, if_neg h0]
    ring

/-- FV is odd in the pair (pmt, pv). -/
theorem FV_neg (r : ℚ) (n : ℤ) (pmt pv : ℚ) :
    FV r n (-pmt) (-pv) = -FV r n pmt pv := by
  rcases eq_or_ne r 0 with h0 | h0
  · subst h0
    simp [FV]
    ring
  · simp only [FV, if_neg h0]
    ring

/-- One-step unfolding of the negated FV balance: advancing the period
count by one multiplies the outstanding balance by 1+r and adds the
(negative) payment p. -/
theorem negFV_succ (r p L : ℚ) (t : ℕ) :
    -FV r ((t : ℤ) + 1) p L = -FV r (t : ℤ) p L + (p - FV r (t : ℤ) p L * r) := by
  rcases eq_or_ne r 0 with h0 | h0
  · subst h0
    simp [FV]
    ring
  · simp only [FV, if_neg h0]
    have h1 : ((t : ℤ) + 1) = ((t + 1 : ℕ) : ℤ) := by push_cast; ring
    rw [h1, zpow_natCast, zpow_natCast, pow_succ]
    field_simp
    ring

/-- The running balance column of the Loan sheet coincides with the
negated FV closed form at every period. -/
theorem loanBalanceCell_eq (i : Inputs) (t : ℕ) :
    loanBalanceCell i t =
      -FV i.rMonth (t : ℤ) (PMT i.rMonth i.nMonths i.loanAmt) i.loanAmt := by
  induction t with
  | zero =>
    rcases eq_or_ne i.rMonth 0 with h0 | h0
    · simp [loanBalanceCell, FV, h0]
    · simp [loanBalanceCell, FV, h0]
  | succ t ih =>
    have h := negFV_succ i.rMonth (PMT i.rMonth i.nMonths i.loanAmt) i.loanAmt t
    have hc : ((t + 1 : ℕ) : ℤ) = (t : ℤ) + 1 := by push_cast; ring
    have hc2 : ((t + 1 : ℕ) : ℤ) - 1 = (t : ℤ) := by push_cast; ring
    calc loanBalanceCell i (t + 1)
        = loanBalanceCell i t + loanPrincipalCell i (t + 1) := by
          simp [loanBalanceCell]
      _ = -FV i.rMonth (t : ℤ) (PMT i.rMonth i.nMonths i.loanAmt) i.loanAmt +
          (PMT i.rMonth i.nMonths i.loanAmt -
            FV i.rMonth (t : ℤ) (PMT i.rMonth i.nMonths i.loanAmt) i.loanAmt *
              i.rMonth) := by
          rw [ih]
          simp only [loanPrincipalCell, PPMT, IPMT]
          rw [hc2]
      _ = -FV i.rMonth ((t : ℤ) + 1) (PMT i.rMonth i.nMonths i.loanAmt) i.loanAmt :=
          h.symm
      _ = -FV i.rMonth ((t + 1 : ℕ) : ℤ) (PMT i.rMonth i.nMonths i.loanAmt)
            i.loanAmt := by rw [hc]

/-- The closed form written from the words of the spec equals the negated
FV closed form, at every integer month. -/
theorem specBalanceAt_negFV (i : Inputs) (m : ℤ) :
    specBalanceAt i m =
      -FV i.rMonth m (PMT i.rMonth i.nMonths i.loanAmt) i.loanAmt := by
  rcases eq_or_ne i.rMonth 0 with h0 | h0
  · simp only [specBalanceAt, FV, loanPaymentCell, PMT, if_pos h0]
    ring
  · simp only [specBalanceAt, FV, loanPaymentCell, if_neg h0]
    ring

/-- Whenever the bisection phase reports a rate, the NPV at that rate is
inside the tolerance: the only returning branch is guarded by the check. -/
theorem bisectIRR_tol (cfs : List ℚ) (fuel : ℕ) :
    ∀ lo hi r, bisectIRR cfs lo hi fuel = some r → |npv r cfs| < tolIRR := by
  induction fuel with
  | zero =>
    intro lo hi r h
    simp [bisectIRR] at h
  | succ fuel ih =>
    intro lo hi r h
    simp only [bisectIRR] at h
    split at h
    · injection h with h'
      subst h'
      assumption
    · split at h
      · exact ih _ _ _ h
      · exact ih _ _ _ h

/-- C1: the amortization schedule written by build_loan_sheet has a fixed
row count of 20, while at the default inputs the loan term times 12 is
240: the emitted sheet does not have one row per month of the term (the
source itself calls the rows placeholders to extend for the full term and
leaves its computed maximal row unused). -/
theorem C1_fixed_row_count :
    (loanSheetRows DEFAULTS).length = 20 ∧
    DEFAULTS.termYears * 12 = 240 ∧
    ((loanSheetRows DEFAULTS).length : ℤ) ≠ DEFAULTS.termYears * 12 := by
  refine ⟨by with_unfolding_all decide, by with_unfolding_all decide, by with_unfolding_all decide⟩

/-- C2 (amended): the pipeline performs no input validation.  With a
nonpositive principal, a negative rate, or a nonpositive month count the
model is still built in full: 20 loan rows, 26 cash flow rows, the
schedule seeded with the invalid principal and year 0 with the negated
equity; no InvalidInput condition exists anywhere. -/
theorem C2_no_validation (i : Inputs)
    (h : i.loanAmt ≤ 0 ∨ i.ratePct < 0 ∨ i.nMonths ≤ 0) :
    (loanSheetRows i).length = 20 ∧ cashflowYearCol.length = 26 ∧
    loanBalanceCell i 0 = i.loanAmt ∧ cfCum i 0 = -(equityIn i) := by
  refine ⟨by simp [loanSheetRows], by with_unfolding_all decide, rfl, ?_⟩
  simp [cfCum, cfTotal, cfLevered, cfSale]

/-- C2 counterexample: a full down payment makes the principal 0, an
invalid input, yet no failure occurs before computation: the loan sheet is
produced from the invalid principal (20 rows, payment cell 0) and the year
0 cumulative cell already holds the computed equity outflow. -/
theorem C2_no_validation_cex :
    zeroPrincipalInput.loanAmt ≤ 0 ∧
    (loanSheetRows zeroPrincipalInput).length = 20 ∧
    loanPaymentCell zeroPrincipalInput = 0 ∧
    cfCum zeroPrincipalInput 0 = -100 := by
  refine ⟨by with_unfolding_all decide, by simp [loanSheetRows], by with_unfolding_all decide, by with_unfolding_all decide⟩

/-- Witness for C2_no_validation at the zero-principal input. -/
theorem C2_no_validation_witness :
    (loanSheetRows zeroPrincipalInput).length = 20 ∧
    cashflowYearCol.length = 26 ∧
    loanBalanceCell zeroPrincipalInput 0 = zeroPrincipalInput.loanAmt ∧
    cfCum zeroPrincipalInput 0 = -(equityIn zeroPrincipalInput) :=
  C2_no_validation zeroPrincipalInput (Or.inl (by with_unfolding_all decide))

/-- C3 (amended): the Loan sheet rows satisfy the spec recurrence once the
spreadsheet sign convention is unwound.  The interest and principal cells
hold the negatives of the interest and principal portions, so for every
period t+1 the negated interest cell equals balance t times the monthly
rate, the negated principal cell equals the payment minus that interest,
and balance t+1 equals balance t minus that principal portion, with
balance 0 the principal. -/
theorem C3_recurrence (i : Inputs) (hL : 0 < i.loanAmt) (hr : 0 ≤ i.rMonth)
    (t : ℕ) :
    -loanInterestCell i (t + 1) = loanBalanceCell i t * i.rMonth ∧
    -loanPrincipalCell i (t + 1) =
      loanPaymentCell i - -loanInterestCell i (t + 1) ∧
    loanBalanceCell i (t + 1) =
      loanBalanceCell i t - -loanPrincipalCell i (t + 1) := by
  have hc2 : ((t + 1 : ℕ) : ℤ) - 1 = (t : ℤ) := by push_cast; ring
  refine ⟨?_, ?_, ?_⟩
  · simp only [loanInterestCell, IPMT]
    rw [hc2, loanBalanceCell_eq]
    ring
  · simp only [loanPrincipalCell, loanInterestCell, loanPaymentCell, PPMT]
    ring
  · simp only [loanBalanceCell]
    ring

/-- C3 counterexample: at principal 1200 and monthly rate 1/10 the
interest cell of period 1 holds -120 (the IPMT value), not the
balance times rate of the claim, which is +120: the cells as written
violate the recurrence by sign. -/
theorem C3_sign_cex :
    0 < steepRateInput.loanAmt ∧ 0 ≤ steepRateInput.rMonth ∧
    loanInterestCell steepRateInput 1 ≠
      loanBalanceCell steepRateInput 0 * steepRateInput.rMonth := by
  refine ⟨by with_unfolding_all decide, by with_unfolding_all decide, by with_unfolding_all decide⟩

/-- Witness for C3_recurrence at the nonzero-rate input, period 1. -/
theorem C3_recurrence_witness :
    -loanInterestCell steepRateInput 1 =
      loanBalanceCell steepRateInput 0 * steepRateInput.rMonth ∧
    -loanPrincipalCell steepRateInput 1 =
      loanPaymentCell steepRateInput - -loanInterestCell steepRateInput 1 ∧
    loanBalanceCell steepRateInput 1 =
      loanBalanceCell steepRateInput 0 - -loanPrincipalCell steepRateInput 1 :=
  C3_recurrence steepRateInput (by with_unfolding_all decide) (by with_unfolding_all decide) 0

/-- C4: at a zero annual rate the fixed monthly payment cell is P/n and
every balance cell is the linear P - t*(P/n): the zero-rate branches of
the spreadsheet annuity functions never divide by the rate. -/
theorem C4_zero_rate (i : Inputs) (hR : i.ratePct = 0) (hn : 0 < i.termYears) :
    loanPaymentCell i = i.loanAmt / ((i.nMonths : ℤ) : ℚ) ∧
    ∀ t : ℕ, loanBalanceCell i t =
      i.loanAmt - (t : ℚ) * (i.loanAmt / ((i.nMonths : ℤ) : ℚ)) := by
  have hr0 : i.rMonth = 0 := by
    rw [Inputs.rMonth, hR]
    norm_num
  constructor
  · simp [loanPaymentCell, PMT, hr0]
  · intro t
    induction t with
    | zero => simp [loanBalanceCell]
    | succ t ih =>
      simp only [loanBalanceCell]
      rw [ih]
      simp [loanPrincipalCell, PPMT, IPMT, PMT, FV, hr0]
      ring

/-- Witness for C4_zero_rate at principal 1200, term 12 months: payment
100 and final balance 0. -/
theorem C4_zero_rate_witness :
    loanPaymentCell flatRateInput =
      flatRateInput.loanAmt / ((flatRateInput.nMonths : ℤ) : ℚ) ∧
    loanBalanceCell flatRateInput 12 =
      flatRateInput.loanAmt -
        ((12 : ℕ) : ℚ) * (flatRateInput.loanAmt / ((flatRateInput.nMonths : ℤ) : ℚ)) ∧
    loanPaymentCell flatRateInput = 100 ∧ loanBalanceCell flatRateInput 12 = 0 :=
  ⟨(C4_zero_rate flatRateInput rfl (by with_unfolding_all decide)).1,
   (C4_zero_rate flatRateInput rfl (by with_unfolding_all decide)).2 12,
   by with_unfolding_all decide, by with_unfolding_all decide⟩

/-- C5 counterexample: with a 1 year term and a 2 year holding period the
exit loan balance entering the sale proceeds is -3600, not 0, and the sale
proceeds cell consequently exceeds the sale price by 3600: the closed form
is extrapolated 12 months past the end of the loan. -/
theorem C5_extrapolate_cex :
    overholdInput.termYears < overholdInput.holdYears ∧
    loanBalExitCF overholdInput = -3600 ∧
    loanBalExitCF overholdInput ≠ 0 ∧
    cfSale overholdInput 2 = 10800 := by
  have hbal : loanBalExitCF overholdInput = -3600 := by
    norm_num [loanBalExitCF, FV, PMT, overholdInput, Inputs.rMonth,
      Inputs.nMonths, Inputs.loanAmt]
  refine ⟨by decide, hbal, by rw [hbal]; norm_num, ?_⟩
  rw [show cfSale overholdInput 2 = cfSalePrice overholdInput - loanBalExitCF overholdInput by
    norm_num [cfSale, overholdInput], hbal]
  norm_num [cfSalePrice, POWER, overholdInput]

/-- C5 (amended): when the holding period exceeds the loan term the exit
balance used for sale proceeds is the closed-form remaining balance
extrapolated past month n (possibly negative), not 0. -/
theorem C5_extrapolates (i : Inputs) (h : i.termYears < i.holdYears) :
    loanBalExitCF i = specBalanceAt i (i.holdYears * 12) := by
  simp only [loanBalExitCF]
  rw [PMT_neg, FV_neg, specBalanceAt_negFV]

/-- Witness for C5_extrapolates at the over-holding input. -/
theorem C5_extrapolates_witness :
    overholdInput.termYears < overholdInput.holdYears ∧
    loanBalExitCF overholdInput =
      specBalanceAt overholdInput (overholdInput.holdYears * 12) :=
  ⟨by with_unfolding_all decide, C5_extrapolates overholdInput (by with_unfolding_all decide)⟩

/-- C6: the breakeven cell is not the smallest year with nonnegative
cumulative cash flow.  On a series whose cumulative cash flow is exactly 0
at year 2 (and negative before) the cell evaluates to year 3, because
INDEX is applied to MATCH plus one, one row past the matched year; and on
a series that never reaches 0 the cell evaluates to a REF error, not a
sentinel value. -/
theorem C6_breakeven_bug :
    breakevenCell breakevenZeroInput = CellResult.val 3 ∧
    breakevenCell breakevenZeroInput ≠ CellResult.val 2 ∧
    cfCum breakevenZeroInput 2 = 0 ∧
    cfCum breakevenZeroInput 1 < 0 ∧ cfCum breakevenZeroInput 0 < 0 ∧
    breakevenCell neverBreakevenInput = CellResult.err "#REF!" := by
  refine ⟨by with_unfolding_all decide, by with_unfolding_all decide, by with_unfolding_all decide, by with_unfolding_all decide, by with_unfolding_all decide, by with_unfolding_all decide⟩

/-- C7: over the total cash flow series of years 0 to holding, a series
with no sign change yields an undefined IRR, and whenever an IRR is
reported its NPV lies within the fixed tolerance.  The solver is modelled
from the spec; the source only emits an IRR formula for the external
engine. -/
theorem C7_irr (i : Inputs) :
    (sameSign (totalCFList i) = true → irrSolve (totalCFList i) = none) ∧
    (∀ r : ℚ, irrSolve (totalCFList i) = some r →
      |npv r (totalCFList i)| < tolIRR) := by
  constructor
  · intro h
    simp [irrSolve, h]
  · intro r h
    simp only [irrSolve] at h
    split at h
    · simp at h
    · exact bisectIRR_tol _ _ _ _ _ h

/-- Witness for C7_irr: a same-sign series reported undefined and a
sign-changing series whose reported rate 901/200 meets the tolerance. -/
theorem C7_irr_witness :
    sameSign (totalCFList sameSignInput) = true ∧
    irrSolve (totalCFList sameSignInput) = none ∧
    irrSolve (totalCFList quickRootInput) = some (901 / 200) ∧
    |npv (901 / 200) (totalCFList quickRootInput)| < tolIRR :=
  ⟨by with_unfolding_all decide, (C7_irr sameSignInput).1 (by with_unfolding_all decide), by with_unfolding_all decide,
   (C7_irr quickRootInput).2 (901 / 200) (by with_unfolding_all decide)⟩

/-- C8: for valid inputs the closed form balanceAt of the spec agrees with
the balance obtained by running the Loan sheet recurrence to any period t
within the term. -/
theorem C8_closed_form (i : Inputs) (hL : 0 < i.loanAmt) (hR : 0 ≤ i.ratePct)
    (hn : 0 < i.termYears) (t : ℕ) (ht : (t : ℤ) ≤ i.nMonths) :
    specBalanceAt i (t : ℤ) = loanBalanceCell i t := by
  rw [loanBalanceCell_eq, specBalanceAt_negFV]

/-- Witness for C8_closed_form at principal 1200, monthly rate 1/10,
month 12: both sides evaluate, and the recurrence balance retires to 0. -/
theorem C8_closed_form_witness :
    0 < steepRateInput.loanAmt ∧ ((12 : ℕ) : ℤ) ≤ steepRateInput.nMonths ∧
    specBalanceAt steepRateInput ((12 : ℕ) : ℤ) =
      loanBalanceCell steepRateInput 12 ∧
    loanBalanceCell steepRateInput 12 = 0 :=
  ⟨by with_unfolding_all decide, by with_unfolding_all decide,
   C8_closed_form steepRateInput (by with_unfolding_all decide) (by with_unfolding_all decide) (by with_unfolding_all decide) 12 (by with_unfolding_all decide),
   by with_unfolding_all decide⟩

/-- C9: the Cash Flow sheet always covers years 0 to 25 (26 rows)
regardless of the holding period - at the defaults (holding 10) the
claimed coverage of years 0 to holding would be 11 rows - while the sale
proceeds column does hold 0 away from the holding year and sale price
minus exit balance at it. -/
theorem C9_fixed_years :
    cashflowYearCol = (List.range 26).map (fun k => (k : ℤ)) ∧
    cashflowYearCol.length = 26 ∧
    DEFAULTS.holdYears = 10 ∧
    cashflowYearCol.length ≠ 10 + 1 ∧
    cfSale DEFAULTS 3 = 0 ∧
    cfSale DEFAULTS 10 = cfSalePrice DEFAULTS - loanBalExitCF DEFAULTS := by
  refine ⟨by with_unfolding_all decide, by with_unfolding_all decide, by with_unfolding_all decide, by with_unfolding_all decide, ?_, ?_⟩
  · norm_num [cfSale, DEFAULTS]
  · norm_num [cfSale, DEFAULTS]

/-- C10: the loan balance at exit on the Summary sheet disagrees with the
exit balance used by the Cash Flow sheet: with a 3 year term and a 1 year
holding period the Summary cell reads 1200 (a future value after
term*12 - hold*12 = 24 periods) while the Cash Flow sheet uses 2400 (the
balance after hold*12 = 12 payments, which is what the comment beside the
Summary formula describes). -/
theorem C10_exit_balance_mismatch :
    summaryLoanBalExit mismatchInput = 1200 ∧
    loanBalExitCF mismatchInput = 2400 ∧
    summaryLoanBalExit mismatchInput ≠ loanBalExitCF mismatchInput := by
  refine ⟨by with_unfolding_all decide, by with_unfolding_all decide, by with_unfolding_all decide⟩
